import Mathlib

/-!
Verification of the soil-classification core and the ThingSpeak feed
parser of the smart-farming dashboard.

Numeric sensor values are modelled as rationals (ℚ): every value the
program compares is a decimal literal or a parsed decimal, and all the
comparisons in the source are exact order comparisons, which ℚ models
faithfully.  Python dictionaries returned by `analyze` are modelled as
association lists that keep the key order of the source.
-/

namespace SoilAgent

/-- A Python value passed to the `SoilAnalysisAgent` constructor: either a
number (int or float), a string, or `None`.  Mirrors the dynamic typing of
the call site; `isinstance(x, (int, float))` holds exactly for `num`. -/
inductive PyInput where
  | num (q : ℚ)
  | str (s : String)
  | pynone
deriving DecidableEq

/-- Constant `SoilAnalysisAgent.DRY_THRESHOLD` from the source. -/
def DRY_THRESHOLD : ℚ := 30

/-- Constant `SoilAnalysisAgent.OPTIMAL_MIN` from the source. -/
def OPTIMAL_MIN : ℚ := 30

/-- Constant `SoilAnalysisAgent.OPTIMAL_MAX` from the source. -/
def OPTIMAL_MAX : ℚ := 60

/-- A validated `SoilAnalysisAgent` instance: the stored soil moisture. -/
structure Agent where
  soil_moisture : ℚ
deriving DecidableEq

/-- Constructor of `SoilAnalysisAgent`: rejects non-numeric input, then rejects
values outside `0 <= soil_moisture <= 100`, otherwise stores the value.
A raised `ValueError` is modelled as `Except.error` with its message. -/
def mkAgent (v : PyInput) : Except String Agent :=
  match v with
  | .num q =>
      if 0 ≤ q ∧ q ≤ 100 then .ok ⟨q⟩
      else .error "Soil moisture must be between 0 and 100"
  | _ => .error "Soil moisture must be numeric"

/-- Method `_classify_soil` of `SoilAnalysisAgent`: three-way threshold lookup. -/
def classify_soil (a : Agent) : String :=
  if a.soil_moisture < DRY_THRESHOLD then "Dry"
  else if OPTIMAL_MIN ≤ a.soil_moisture ∧ a.soil_moisture ≤ OPTIMAL_MAX then "Optimal"
  else "Overwatered"

/-- Rendering of the stored moisture value inside an f-string; the exact
decimal formatting of Python floats is abstracted by the `toString` of ℚ. -/
def moistureText (m : ℚ) : String := toString m

/-- Entry keyed Dry in the `recommendations` dictionary. -/
def dryRecommendation (m : ℚ) : String :=
  "⚠️ IRRIGATION NEEDED: Soil moisture is at " ++ moistureText m ++
    "%. Water your crops immediately. Increase irrigation frequency to prevent crop stress."

/-- Entry keyed Optimal in the `recommendations` dictionary. -/
def optimalRecommendation (m : ℚ) : String :=
  "✅ CONDITIONS NORMAL: Soil moisture is at " ++ moistureText m ++
    "%. Maintain current irrigation schedule. Crops are in ideal growing conditions."

/-- Entry keyed Overwatered in the `recommendations` dictionary. -/
def overwateredRecommendation (m : ℚ) : String :=
  "⚠️ REDUCE WATERING: Soil moisture is at " ++ moistureText m ++
    "%. Stop irrigation for now to prevent waterlogging and root rot. Improve drainage if possible."

/-- Method `_get_recommendation` of `SoilAnalysisAgent`: dictionary lookup keyed by the
classification string, with default `"Unknown condition"`. -/
def get_recommendation (a : Agent) (classification : String) : String :=
  if classification = "Dry" then dryRecommendation a.soil_moisture
  else if classification = "Optimal" then optimalRecommendation a.soil_moisture
  else if classification = "Overwatered" then overwateredRecommendation a.soil_moisture
  else "Unknown condition"

/-- Method `_determine_urgency` of `SoilAnalysisAgent`: urgency from the classification
string, with moisture sub-thresholds inside the Dry and Overwatered arms. -/
def determine_urgency (a : Agent) (classification : String) : String :=
  if classification = "Optimal" then "Low"
  else if classification = "Dry" then
    if a.soil_moisture < 15 then "High" else "Medium"
  else
    if a.soil_moisture > 80 then "High" else "Medium"

/-- A value stored in the dictionary returned by `analyze`. -/
inductive PyValue where
  | vnum (q : ℚ)
  | vstr (s : String)
  | vbool (b : Bool)
deriving DecidableEq

/-- Method `analyze` of `SoilAnalysisAgent`: builds the result dictionary, modelled as
an association list in the key order of the source. -/
def analyze (a : Agent) : List (String × PyValue) :=
  let classification := classify_soil a
  let recommendation := get_recommendation a classification
  let urgency := determine_urgency a classification
  [ ("soil_moisture", PyValue.vnum a.soil_moisture),
    ("classification", PyValue.vstr classification),
    ("recommendation", PyValue.vstr recommendation),
    ("urgency", PyValue.vstr urgency),
    ("status", PyValue.vbool true) ]

end SoilAgent

namespace ThingSpeak

/-- The value a feed lookup yields for one ThingSpeak feed field:
the key may be absent (`None`), present as the empty string, present as a
string that `float()` parses to `q`, or present as a string on which
`float()` raises `ValueError`. -/
inductive FeedField where
  | absent
  | empty
  | numStr (q : ℚ)
  | badStr
deriving DecidableEq

/-- One raw feed record from the ThingSpeak API. -/
structure Feed where
  field1 : FeedField
  field2 : FeedField
  field3 : FeedField
  created_at : Option String
deriving DecidableEq

/-- The parsed sensor-data dictionary built by `_parse_feed_fields`. -/
structure SensorData where
  soil_moisture : ℚ
  temperature : ℚ
  humidity : ℚ
  timestamp : Option String
  success : Bool
deriving DecidableEq

/-- Conversion of an optional field after the missing-or-empty
check has been passed, substituting a default when it applies. -/
def parseOptionalField (f : FeedField) (default : ℚ) : Except String ℚ :=
  match f with
  | .absent => .ok default
  | .empty => .ok default
  | .numStr q => .ok q
  | .badStr => .error "Failed to parse feed fields"

/-- Method `_parse_feed_fields` of `ThingSpeakAPI`: requires `field1` to be present and
non-empty and to parse as a float; substitutes 25.0 for a missing or empty
`field2` (temperature) and 60.0 for a missing or empty `field3` (humidity);
then validates the three ranges.  Each raised `ValueError` is modelled as
`Except.error` with a message identifying the check that failed. -/
def parse_feed_fields (feed : Feed) : Except String SensorData :=
  match feed.field1 with
  | .absent => .error "Missing required sensor field (field1: soil_moisture)"
  | .empty => .error "Missing required sensor field (field1: soil_moisture)"
  | .badStr => .error "Failed to parse feed fields"
  | .numStr soil_moisture =>
    match parseOptionalField feed.field2 25 with
    | .error e => .error e
    | .ok temperature =>
      match parseOptionalField feed.field3 60 with
      | .error e => .error e
      | .ok humidity =>
        if ¬ (0 ≤ soil_moisture ∧ soil_moisture ≤ 100) then
          .error "Soil moisture out of valid range (0-100)"
        else if ¬ (-50 ≤ temperature ∧ temperature ≤ 60) then
          .error "Temperature out of realistic range (-50 to 60)"
        else if ¬ (0 ≤ humidity ∧ humidity ≤ 100) then
          .error "Humidity out of valid range (0-100)"
        else
          .ok ⟨soil_moisture, temperature, humidity, feed.created_at, true⟩

end ThingSpeak

example : (ThingSpeak.parse_feed_fields ⟨.numStr 45, .absent, .empty, none⟩) =
    .ok ⟨45, 25, 60, none, true⟩ := by rfl
example : (ThingSpeak.parse_feed_fields ⟨.numStr 45, .numStr 30, .numStr 70, none⟩) =
    .ok ⟨45, 30, 70, none, true⟩ := by rfl
example : (ThingSpeak.parse_feed_fields ⟨.absent, .numStr 30, .numStr 70, none⟩).isOk = false := by rfl
example : (ThingSpeak.parse_feed_fields ⟨.numStr 145, .numStr 30, .numStr 70, none⟩).isOk = false := by rfl

example : SoilAgent.classify_soil ⟨45⟩ = "Optimal" := by decide
example : SoilAgent.classify_soil ⟨30⟩ = "Optimal" := by decide
example : SoilAgent.classify_soil ⟨60⟩ = "Optimal" := by decide
example : SoilAgent.classify_soil ⟨29⟩ = "Dry" := by decide
example : SoilAgent.classify_soil ⟨61⟩ = "Overwatered" := by decide
example : SoilAgent.determine_urgency ⟨14⟩ "Dry" = "High" := by decide
example : (SoilAgent.mkAgent (.num (-1))).isOk = false := by decide

/-- Claim C1: for every numeric soil moisture m in [0,100] the classification
is a three-way partition with boundaries owned by the lower bucket:
m < 30 gives Dry, 30 ≤ m ≤ 60 gives Optimal (in particular m = 30 and
m = 60 give Optimal), and 60 < m gives Overwatered. -/
theorem c1_classification_partition (m : ℚ) (h0 : 0 ≤ m) (h100 : m ≤ 100) :
    (m < 30 → SoilAgent.classify_soil ⟨m⟩ = "Dry") ∧
    (30 ≤ m → m ≤ 60 → SoilAgent.classify_soil ⟨m⟩ = "Optimal") ∧
    (60 < m → SoilAgent.classify_soil ⟨m⟩ = "Overwatered") ∧
    SoilAgent.classify_soil ⟨30⟩ = "Optimal" ∧
    SoilAgent.classify_soil ⟨60⟩ = "Optimal" := by
  refine ⟨fun h => ?_, fun h1 h2 => ?_, fun h => ?_, by decide, by decide⟩ <;>
    simp only [SoilAgent.classify_soil, SoilAgent.DRY_THRESHOLD, SoilAgent.OPTIMAL_MIN,
      SoilAgent.OPTIMAL_MAX]
  · rw [if_pos h]
  · rw [if_neg (by linarith : ¬ m < 30), if_pos ⟨h1, h2⟩]
  · rw [if_neg (by linarith : ¬ m < 30),
      if_neg (by rintro ⟨-, h2⟩; linarith : ¬ (30 ≤ m ∧ m ≤ 60))]

/-- Witness for C1 at m = 45. -/
theorem c1_classification_partition_witness :
    (0:ℚ) ≤ 45 ∧ (45:ℚ) ≤ 100 ∧ (30 ≤ (45:ℚ) → (45:ℚ) ≤ 60 →
      SoilAgent.classify_soil ⟨45⟩ = "Optimal") :=
  ⟨by norm_num, by norm_num, (c1_classification_partition 45 (by norm_num) (by norm_num)).2.1⟩

/-- Claim C2: for every numeric soil moisture m in [0,100], the urgency is
Low when the classification is Optimal; for Dry it is High when m < 15 and
Medium when m ≥ 15; for Overwatered it is High when m > 80 and Medium when
m ≤ 80. -/
theorem c2_urgency (m : ℚ) (h0 : 0 ≤ m) (h100 : m ≤ 100) :
    (SoilAgent.classify_soil ⟨m⟩ = "Optimal" →
      SoilAgent.determine_urgency ⟨m⟩ (SoilAgent.classify_soil ⟨m⟩) = "Low") ∧
    (SoilAgent.classify_soil ⟨m⟩ = "Dry" →
      (m < 15 → SoilAgent.determine_urgency ⟨m⟩ (SoilAgent.classify_soil ⟨m⟩) = "High") ∧
      (15 ≤ m → SoilAgent.determine_urgency ⟨m⟩ (SoilAgent.classify_soil ⟨m⟩) = "Medium")) ∧
    (SoilAgent.classify_soil ⟨m⟩ = "Overwatered" →
      (80 < m → SoilAgent.determine_urgency ⟨m⟩ (SoilAgent.classify_soil ⟨m⟩) = "High") ∧
      (m ≤ 80 → SoilAgent.determine_urgency ⟨m⟩ (SoilAgent.classify_soil ⟨m⟩) = "Medium")) := by
  refine ⟨fun hc => ?_, fun hc => ⟨fun h => ?_, fun h => ?_⟩, fun hc => ⟨fun h => ?_, fun h => ?_⟩⟩ <;>
    rw [hc] <;>
    simp only [SoilAgent.determine_urgency]
  · simp
  · simp [h]
  · simp [not_lt.mpr h]
  · simp [h]
  · simp [not_lt.mpr h]

/-- Witness for C2 at m = 10 (Dry, High). -/
theorem c2_urgency_witness :
    (0:ℚ) ≤ 10 ∧ (10:ℚ) ≤ 100 ∧ SoilAgent.classify_soil ⟨10⟩ = "Dry" ∧ (10:ℚ) < 15 ∧
      SoilAgent.determine_urgency ⟨10⟩ (SoilAgent.classify_soil ⟨10⟩) = "High" :=
  ⟨by norm_num, by norm_num, by decide, by norm_num,
    ((c2_urgency 10 (by norm_num) (by norm_num)).2.1 (by decide)).1 (by norm_num)⟩

/-- Claim C3: constructing the agent fails exactly when the input is
non-numeric or a number outside [0,100]; in particular -1, 101, a string
and None are rejected, and every numeric value in [0,100] is accepted. -/
theorem c3_constructor_validation :
    (∀ v : SoilAgent.PyInput, (SoilAgent.mkAgent v).isOk = true ↔
      ∃ q : ℚ, v = SoilAgent.PyInput.num q ∧ 0 ≤ q ∧ q ≤ 100) ∧
    (SoilAgent.mkAgent (.num (-1))).isOk = false ∧
    (SoilAgent.mkAgent (.num 101)).isOk = false ∧
    (SoilAgent.mkAgent (.str "very wet")).isOk = false ∧
    (SoilAgent.mkAgent .pynone).isOk = false := by
  refine ⟨fun v => ?_, by decide, by decide, by decide, by decide⟩
  cases v with
  | num q =>
      constructor
      · intro h
        by_cases hq : 0 ≤ q ∧ q ≤ 100
        · exact ⟨q, rfl, hq.1, hq.2⟩
        · simp [SoilAgent.mkAgent, hq, Except.isOk, Except.toBool] at h
      · rintro ⟨q', heq, hq1, hq2⟩
        cases heq
        simp [SoilAgent.mkAgent, hq1, hq2, Except.isOk, Except.toBool]
  | str s => simp [SoilAgent.mkAgent, Except.isOk, Except.toBool]
  | pynone => simp [SoilAgent.mkAgent, Except.isOk, Except.toBool]

/-- Claim C4: analyze is a pure deterministic function of the stored soil
moisture: the same instance analyzed twice gives identical output, and two
instances with equal stored moisture give equal assessments (hence equal
classification, recommendation and urgency entries). -/
theorem c4_analyze_deterministic (a b : SoilAgent.Agent)
    (h : a.soil_moisture = b.soil_moisture) :
    SoilAgent.analyze a = SoilAgent.analyze a ∧
    SoilAgent.analyze a = SoilAgent.analyze b := by
  have hab : a = b := by cases a; cases b; simpa using h
  exact ⟨rfl, by rw [hab]⟩

/-- Witness for C4 with two instances both storing m = 45. -/
theorem c4_analyze_deterministic_witness :
    (SoilAgent.Agent.mk 45).soil_moisture = (SoilAgent.Agent.mk 45).soil_moisture ∧
    SoilAgent.analyze ⟨45⟩ = SoilAgent.analyze ⟨45⟩ :=
  ⟨rfl, (c4_analyze_deterministic ⟨45⟩ ⟨45⟩ rfl).2⟩

/-- Claim C7: the soil_moisture entry of the assessment echoes the stored
input unchanged, for every stored moisture value. -/
theorem c7_soil_moisture_echoed (m : ℚ) :
    (SoilAgent.analyze ⟨m⟩).lookup "soil_moisture" = some (SoilAgent.PyValue.vnum m) := rfl

/-- The classification helper always answers Dry below 30. -/
lemma classify_eq_dry (m : ℚ) (h : m < 30) : SoilAgent.classify_soil ⟨m⟩ = "Dry" := by
  simp only [SoilAgent.classify_soil, SoilAgent.DRY_THRESHOLD]
  rw [if_pos h]

/-- The classification helper answers Optimal on [30, 60]. -/
lemma classify_eq_optimal (m : ℚ) (h1 : 30 ≤ m) (h2 : m ≤ 60) :
    SoilAgent.classify_soil ⟨m⟩ = "Optimal" := by
  simp only [SoilAgent.classify_soil, SoilAgent.DRY_THRESHOLD, SoilAgent.OPTIMAL_MIN,
    SoilAgent.OPTIMAL_MAX]
  rw [if_neg (by linarith : ¬ m < 30), if_pos ⟨h1, h2⟩]

/-- The classification helper answers Overwatered above 60. -/
lemma classify_eq_overwatered (m : ℚ) (h : 60 < m) :
    SoilAgent.classify_soil ⟨m⟩ = "Overwatered" := by
  simp only [SoilAgent.classify_soil, SoilAgent.DRY_THRESHOLD, SoilAgent.OPTIMAL_MIN,
    SoilAgent.OPTIMAL_MAX]
  rw [if_neg (by linarith : ¬ m < 30),
    if_neg (by rintro ⟨-, h2⟩; linarith : ¬ (30 ≤ m ∧ m ≤ 60))]

/-- The classification is always one of the three fixed strings. -/
lemma classify_mem (a : SoilAgent.Agent) :
    SoilAgent.classify_soil a = "Dry" ∨ SoilAgent.classify_soil a = "Optimal" ∨
      SoilAgent.classify_soil a = "Overwatered" := by
  simp only [SoilAgent.classify_soil]
  split_ifs <;> simp

/-- Claim C5 counterexample: at m = 45 the assessment dictionary has no key
named valid; its boolean success entry is keyed status instead. -/
theorem c5_counterexample :
    "valid" ∉ (SoilAgent.analyze ⟨45⟩).map Prod.fst := by decide

/-- Claim C5 as amended: the assessment is a flat key/value structure with
exactly the keys soil_moisture, classification, recommendation, urgency and
status (not valid), and the status entry is the boolean true. -/
theorem c5_keys_amended (m : ℚ) (h0 : 0 ≤ m) (h100 : m ≤ 100) :
    (SoilAgent.analyze ⟨m⟩).map Prod.fst =
      ["soil_moisture", "classification", "recommendation", "urgency", "status"] ∧
    (SoilAgent.analyze ⟨m⟩).lookup "status" = some (SoilAgent.PyValue.vbool true) :=
  ⟨rfl, rfl⟩

/-- Witness for the amended C5 at m = 45. -/
theorem c5_keys_amended_witness :
    (0:ℚ) ≤ 45 ∧ (45:ℚ) ≤ 100 ∧
    ((SoilAgent.analyze ⟨45⟩).map Prod.fst =
      ["soil_moisture", "classification", "recommendation", "urgency", "status"] ∧
    (SoilAgent.analyze ⟨45⟩).lookup "status" = some (SoilAgent.PyValue.vbool true)) :=
  ⟨by norm_num, by norm_num, c5_keys_amended 45 (by norm_num) (by norm_num)⟩

/-- Claim C6: the recommendation entry of the assessment is the fixed
template of the classification, interpolating the moisture value: the Dry
template (immediate irrigation) below 30, the Optimal template (maintain
schedule) on [30,60], and the Overwatered template (halt irrigation,
improve drainage) above 60. -/
theorem c6_recommendation_templates (m : ℚ) (h0 : 0 ≤ m) (h100 : m ≤ 100) :
    (m < 30 → (SoilAgent.analyze ⟨m⟩).lookup "recommendation" =
      some (SoilAgent.PyValue.vstr (SoilAgent.dryRecommendation m))) ∧
    (30 ≤ m → m ≤ 60 → (SoilAgent.analyze ⟨m⟩).lookup "recommendation" =
      some (SoilAgent.PyValue.vstr (SoilAgent.optimalRecommendation m))) ∧
    (60 < m → (SoilAgent.analyze ⟨m⟩).lookup "recommendation" =
      some (SoilAgent.PyValue.vstr (SoilAgent.overwateredRecommendation m))) := by
  have hl : (SoilAgent.analyze ⟨m⟩).lookup "recommendation" =
      some (SoilAgent.PyValue.vstr
        (SoilAgent.get_recommendation ⟨m⟩ (SoilAgent.classify_soil ⟨m⟩))) := rfl
  refine ⟨fun h => ?_, fun h1 h2 => ?_, fun h => ?_⟩ <;> rw [hl]
  · rw [classify_eq_dry m h]
    simp [SoilAgent.get_recommendation]
  · rw [classify_eq_optimal m h1 h2]
    simp [SoilAgent.get_recommendation]
  · rw [classify_eq_overwatered m h]
    simp [SoilAgent.get_recommendation]

/-- Witness for C6 at m = 45 (Optimal branch). -/
theorem c6_recommendation_templates_witness :
    (0:ℚ) ≤ 45 ∧ (45:ℚ) ≤ 100 ∧ (30 ≤ (45:ℚ) ∧ (45:ℚ) ≤ 60) ∧
    (SoilAgent.analyze ⟨45⟩).lookup "recommendation" =
      some (SoilAgent.PyValue.vstr (SoilAgent.optimalRecommendation 45)) :=
  ⟨by norm_num, by norm_num, ⟨by norm_num, by norm_num⟩,
    (c6_recommendation_templates 45 (by norm_num) (by norm_num)).2.1 (by norm_num) (by norm_num)⟩

/-- Two strings with different leading characters differ, applied to a
three-part concatenation whose left part is a non-empty literal. -/
lemma append3_ne_of_head (p x q t : String) (c d : Char) (cs ds : List Char)
    (hp : p.data = c :: cs) (ht : t.data = d :: ds) (hcd : c ≠ d) :
    p ++ x ++ q ≠ t := by
  intro h
  have hd := congrArg String.data h
  rw [String.data_append, String.data_append, hp, ht, List.cons_append,
    List.cons_append] at hd
  injection hd with h1 _
  exact hcd h1

/-- The Dry template never collides with the lookup fallback string. -/
lemma dryRecommendation_ne_unknown (m : ℚ) :
    SoilAgent.dryRecommendation m ≠ "Unknown condition" := by
  rw [SoilAgent.dryRecommendation]
  exact append3_ne_of_head _ _ _ _ '⚠' 'U' _ _ rfl rfl (by decide)

/-- The Optimal template never collides with the lookup fallback string. -/
lemma optimalRecommendation_ne_unknown (m : ℚ) :
    SoilAgent.optimalRecommendation m ≠ "Unknown condition" := by
  rw [SoilAgent.optimalRecommendation]
  exact append3_ne_of_head _ _ _ _ '✅' 'U' _ _ rfl rfl (by decide)

/-- The Overwatered template never collides with the lookup fallback. -/
lemma overwateredRecommendation_ne_unknown (m : ℚ) :
    SoilAgent.overwateredRecommendation m ≠ "Unknown condition" := by
  rw [SoilAgent.overwateredRecommendation]
  exact append3_ne_of_head _ _ _ _ '⚠' 'U' _ _ rfl rfl (by decide)

/-- Claim C9: the recommendation lookup fallback is unreachable from
analyze: for every stored moisture the classification is one of the three
fixed strings, the recommendation is one of the three templates, and it is
never the fallback string. -/
theorem c9_fallback_unreachable (m : ℚ) :
    (SoilAgent.classify_soil ⟨m⟩ = "Dry" ∨ SoilAgent.classify_soil ⟨m⟩ = "Optimal" ∨
      SoilAgent.classify_soil ⟨m⟩ = "Overwatered") ∧
    (SoilAgent.get_recommendation ⟨m⟩ (SoilAgent.classify_soil ⟨m⟩) =
        SoilAgent.dryRecommendation m ∨
      SoilAgent.get_recommendation ⟨m⟩ (SoilAgent.classify_soil ⟨m⟩) =
        SoilAgent.optimalRecommendation m ∨
      SoilAgent.get_recommendation ⟨m⟩ (SoilAgent.classify_soil ⟨m⟩) =
        SoilAgent.overwateredRecommendation m) ∧
    SoilAgent.get_recommendation ⟨m⟩ (SoilAgent.classify_soil ⟨m⟩) ≠ "Unknown condition" := by
  refine ⟨classify_mem ⟨m⟩, ?_, ?_⟩ <;>
    rcases classify_mem ⟨m⟩ with hc | hc | hc <;> rw [hc] <;>
      simp only [SoilAgent.get_recommendation] <;> simp
  · exact dryRecommendation_ne_unknown m
  · exact optimalRecommendation_ne_unknown m
  · exact overwateredRecommendation_ne_unknown m

/-- Inversion of a successful `parse_feed_fields`: the shape of the input
fields and the range checks that must have passed. -/
lemma parse_ok_inv (feed : ThingSpeak.Feed) (r : ThingSpeak.SensorData)
    (h : ThingSpeak.parse_feed_fields feed = .ok r) :
    (∃ m, feed.field1 = .numStr m ∧ r.soil_moisture = m) ∧
    ThingSpeak.parseOptionalField feed.field2 25 = .ok r.temperature ∧
    ThingSpeak.parseOptionalField feed.field3 60 = .ok r.humidity ∧
    (0 ≤ r.soil_moisture ∧ r.soil_moisture ≤ 100) ∧
    (-50 ≤ r.temperature ∧ r.temperature ≤ 60) ∧
    (0 ≤ r.humidity ∧ r.humidity ≤ 100) ∧
    r.timestamp = feed.created_at ∧
    r.success = true := by
  rcases feed with ⟨f1, f2, f3, ts⟩
  cases f1 with
  | absent => simp [ThingSpeak.parse_feed_fields] at h
  | empty => simp [ThingSpeak.parse_feed_fields] at h
  | badStr => simp [ThingSpeak.parse_feed_fields] at h
  | numStr m =>
    simp only [ThingSpeak.parse_feed_fields] at h
    cases hT : ThingSpeak.parseOptionalField f2 25 with
    | error e => rw [hT] at h; simp at h
    | ok T =>
      rw [hT] at h
      dsimp only at h
      cases hH : ThingSpeak.parseOptionalField f3 60 with
      | error e => rw [hH] at h; simp at h
      | ok H =>
        rw [hH] at h
        dsimp only at h
        by_cases hm : ¬ (0 ≤ m ∧ m ≤ 100)
        · rw [if_pos hm] at h; simp at h
        · rw [if_neg hm] at h
          by_cases ht : ¬ (-50 ≤ T ∧ T ≤ 60)
          · rw [if_pos ht] at h; simp at h
          · rw [if_neg ht] at h
            by_cases hhu : ¬ (0 ≤ H ∧ H ≤ 100)
            · rw [if_pos hhu] at h; simp at h
            · rw [if_neg hhu] at h
              rw [not_not] at hm ht hhu
              injection h with h'
              subst h'
              exact ⟨⟨m, rfl, rfl⟩, rfl, rfl, hm, ht, hhu, rfl, rfl⟩

/-- A successfully parsed optional field is its own value when present and
the default when absent or empty. -/
lemma parseOptionalField_ok_cases (f : ThingSpeak.FeedField) (d q : ℚ)
    (h : ThingSpeak.parseOptionalField f d = .ok q) :
    ((f = .absent ∨ f = .empty) → q = d) ∧
    (∀ t, f = .numStr t → q = t) := by
  cases f <;> simp [ThingSpeak.parseOptionalField] at h <;>
    simp [h]

/-- Claim C8: for a feed whose soil-moisture field parses to a value in
[0,100], a successfully parsed reading substitutes temperature 25.0 when
field2 is absent or empty and humidity 60.0 when field3 is absent or
empty, and otherwise uses the parsed values of the fields; when both optional
fields are absent or empty the parse succeeds with those defaults. -/
theorem c8_optional_field_defaults (feed : ThingSpeak.Feed) (m : ℚ)
    (h1 : feed.field1 = .numStr m) (h2 : 0 ≤ m) (h3 : m ≤ 100) :
    (∀ r, ThingSpeak.parse_feed_fields feed = .ok r →
      ((feed.field2 = .absent ∨ feed.field2 = .empty) → r.temperature = 25) ∧
      ((feed.field3 = .absent ∨ feed.field3 = .empty) → r.humidity = 60) ∧
      (∀ t, feed.field2 = .numStr t → r.temperature = t) ∧
      (∀ u, feed.field3 = .numStr u → r.humidity = u)) ∧
    ((feed.field2 = .absent ∨ feed.field2 = .empty) →
     (feed.field3 = .absent ∨ feed.field3 = .empty) →
      ThingSpeak.parse_feed_fields feed = .ok ⟨m, 25, 60, feed.created_at, true⟩) := by
  constructor
  · intro r hr
    obtain ⟨-, hT, hH, -, -, -, -, -⟩ := parse_ok_inv feed r hr
    obtain ⟨hTd, hTv⟩ := parseOptionalField_ok_cases feed.field2 25 r.temperature hT
    obtain ⟨hHd, hHv⟩ := parseOptionalField_ok_cases feed.field3 60 r.humidity hH
    exact ⟨hTd, hHd, hTv, hHv⟩
  · intro hf2 hf3
    rcases feed with ⟨f1, f2, f3, ts⟩
    simp only at h1
    subst h1
    have e2 : ThingSpeak.parseOptionalField f2 25 = .ok 25 := by
      rcases hf2 with h | h <;> simp only at h <;> subst h <;> rfl
    have e3 : ThingSpeak.parseOptionalField f3 60 = .ok 60 := by
      rcases hf3 with h | h <;> simp only at h <;> subst h <;> rfl
    simp only [ThingSpeak.parse_feed_fields, e2, e3]
    rw [if_neg (by simp [h2, h3]), if_neg (by norm_num), if_neg (by norm_num)]

/-- Witness for C8: a feed with soil moisture 45 and both optional fields
missing parses to the default temperature and humidity. -/
theorem c8_optional_field_defaults_witness :
    (ThingSpeak.Feed.mk (.numStr 45) .absent .empty none).field1 = .numStr 45 ∧
    (0:ℚ) ≤ 45 ∧ (45:ℚ) ≤ 100 ∧
    ThingSpeak.parse_feed_fields (ThingSpeak.Feed.mk (.numStr 45) .absent .empty none) =
      .ok ⟨45, 25, 60, none, true⟩ :=
  ⟨rfl, by norm_num, by norm_num,
    (c8_optional_field_defaults (ThingSpeak.Feed.mk (.numStr 45) .absent .empty none) 45
      rfl (by norm_num) (by norm_num)).2 (Or.inl rfl) (Or.inr rfl)⟩

/-- Claim C10: every successfully parsed reading satisfies the sensor-range
invariants, reports success, and its soil moisture satisfies the soil
constructor precondition of the soil classifier, so constructing the agent from it
cannot fail. -/
theorem c10_parsed_reading_valid (feed : ThingSpeak.Feed) (r : ThingSpeak.SensorData)
    (h : ThingSpeak.parse_feed_fields feed = .ok r) :
    0 ≤ r.soil_moisture ∧ r.soil_moisture ≤ 100 ∧
    -50 ≤ r.temperature ∧ r.temperature ≤ 60 ∧
    0 ≤ r.humidity ∧ r.humidity ≤ 100 ∧
    r.success = true ∧
    (SoilAgent.mkAgent (.num r.soil_moisture)).isOk = true := by
  obtain ⟨-, -, -, hm, ht, hh, -, hs⟩ := parse_ok_inv feed r h
  refine ⟨hm.1, hm.2, ht.1, ht.2, hh.1, hh.2, hs, ?_⟩
  simp [SoilAgent.mkAgent, hm.1, hm.2, Except.isOk, Except.toBool]

/-- Witness for C10 on a concrete feed record. -/
theorem c10_parsed_reading_valid_witness :
    ThingSpeak.parse_feed_fields (ThingSpeak.Feed.mk (.numStr 45) (.numStr 30) (.numStr 70) none) =
      .ok ⟨45, 30, 70, none, true⟩ ∧
    (0 ≤ (45:ℚ) ∧ (45:ℚ) ≤ 100 ∧ -50 ≤ (30:ℚ) ∧ (30:ℚ) ≤ 60 ∧
      (0:ℚ) ≤ 70 ∧ (70:ℚ) ≤ 100 ∧ True) := by
  constructor
  · rfl
  · have := c10_parsed_reading_valid
      (ThingSpeak.Feed.mk (.numStr 45) (.numStr 30) (.numStr 70) none)
      ⟨45, 30, 70, none, true⟩ rfl
    exact ⟨this.1, this.2.1, this.2.2.1, this.2.2.2.1, this.2.2.2.2.1, this.2.2.2.2.2.1, trivial⟩
